import Mathlib

/-!
Verification of the graft-hook deployment dispatcher (src/main.rs).

The dispatcher receives a webhook payload, looks the project up in the
configuration map, selects a deployment mode, resolves credentials with
environment fallback, and drives external commands through `sh -c`.

The embedding models the handler as a pure function. External command
execution is modelled by an oracle `exec : String → CmdResult` giving the
result of each command line handed to the shell, and every function
returns, besides the response message, the ordered list of command lines
it actually handed to the shell, so that statements about which commands
ran (and which never ran) can be made precise.
-/

namespace GraftHook

/-- The deserialized webhook body (struct `WebhookPayload`, src/main.rs lines
7-15). Fields declared `Option` are optional in the JSON body; the others are
required by serde. The Rust field `r#type` is called `type` here as well. -/
structure WebhookPayload where
  project : String
  repository : String
  githubtoken : Option String
  user : Option String
  type : String
  registry : Option String
deriving DecidableEq, Repr

/-- Process-wide environment defaults read via `env::var` (lines 96, 99,
159, 162): the values of `DOCKER_TOKEN` and `DOCKER_USER`, when set. -/
structure Env where
  DOCKER_TOKEN : Option String
  DOCKER_USER : Option String
deriving DecidableEq, Repr

/-- Result of running one external command: `exited b` models
`Ok(status)` with `status.success() = b`; `spawnError` models `Err(_)`
from `tokio::process::Command` (the process could not be started). -/
inductive CmdResult where
  | exited (success : Bool)
  | spawnError
deriving DecidableEq, Repr

/-- The command line built at lines 114-117: git pull through an inline
credential helper, with the resolved user and token formatted in. -/
def gitPullCmd (path u t : String) : String :=
  "cd " ++ path ++
    " && git -c credential.helper= -c \"credential.helper=!f() \x7b echo username=" ++
    u ++ "; echo password=" ++ t ++ "; \x7d; f\" pull origin main"

/-- The command line built at line 135: compose rebuild and restart. -/
def composeBuildCmd (path : String) : String :=
  "cd " ++ path ++ " && docker compose up -d --build"

/-- The command line built at line 179: registry login with the token piped
on standard input, user and registry formatted in. -/
def loginCmd (t registry u : String) : String :=
  "echo " ++ t ++ " | docker login " ++ registry ++ " -u " ++ u ++
    " --password-stdin"

/-- The command line built at line 197: compose pull and restart. -/
def composePullCmd (path : String) : String :=
  "cd " ++ path ++ " && docker compose up -d --pull always"

/-- Token resolution (lines 95-96 and 158-159): the request field
`githubtoken`, falling back to the environment default `DOCKER_TOKEN`. -/
def resolveToken (env : Env) (p : WebhookPayload) : Option String :=
  p.githubtoken.orElse fun _ => env.DOCKER_TOKEN

/-- User resolution (lines 98-99 and 161-162): the request field `user`,
falling back to the environment default `DOCKER_USER`. -/
def resolveUser (env : Env) (p : WebhookPayload) : Option String :=
  p.user.orElse fun _ => env.DOCKER_USER

/-- Registry resolution (lines 164-165): the request field `registry`,
defaulting to `ghcr.io` when absent. Total: there is no failure case. -/
def resolveRegistry (p : WebhookPayload) : String :=
  p.registry.getD "ghcr.io"

/-- Function deploy_git (lines 93-154), the source-mode strategy: resolve
credentials, run the git pull command, and only if it exited successfully
run the compose build command. Returns the response message and the list
of command lines handed to the shell, in order. -/
def deploy_git (env : Env) (path : String) (payload : WebhookPayload)
    (exec : String → CmdResult) : String × List String :=
  match resolveToken env payload, resolveUser env payload with
  | some t, some u =>
    match exec (gitPullCmd path u t) with
    | .exited true =>
      match exec (composeBuildCmd path) with
      | .exited true =>
          ("Success: Repo Pulled and Containers Rebuilt",
            [gitPullCmd path u t, composeBuildCmd path])
      | .exited false =>
          ("Git pull success, but Compose build/up failed",
            [gitPullCmd path u t, composeBuildCmd path])
      | .spawnError =>
          ("Command execution error",
            [gitPullCmd path u t, composeBuildCmd path])
    | _ => ("Git Pull Failed", [gitPullCmd path u t])
  | _, _ => ("Missing Git Credentials", [])

/-- Function deploy_docker (lines 156-216), the image-mode strategy: resolve
credentials and registry, run the login command, and only if it exited
successfully run the compose pull command. -/
def deploy_docker (env : Env) (path : String) (payload : WebhookPayload)
    (exec : String → CmdResult) : String × List String :=
  let registry := resolveRegistry payload
  match resolveToken env payload, resolveUser env payload with
  | some t, some u =>
    match exec (loginCmd t registry u) with
    | .exited true =>
      match exec (composePullCmd path) with
      | .exited true =>
          ("Success: Images Pulled and Containers Restarted",
            [loginCmd t registry u, composePullCmd path])
      | .exited false =>
          ("Docker Compose pull/up failed",
            [loginCmd t registry u, composePullCmd path])
      | .spawnError =>
          ("Command execution error",
            [loginCmd t registry u, composePullCmd path])
    | _ => ("Docker Login Failed", [loginCmd t registry u])
  | _, _ => ("Missing Docker Credentials", [])

/-- Function handle_deploy (lines 57-91): look the project up in the config map
first (lines 64-74); only then match on the deployment type (lines 76-90).
The config map is modelled as a lookup function, read-only per request. -/
def handle_deploy (config : String → Option String) (env : Env)
    (payload : WebhookPayload) (exec : String → CmdResult) :
    String × List String :=
  match config payload.project with
  | none => ("Project not found in config", [])
  | some path =>
    match payload.type with
    | "repo" => deploy_git env path payload exec
    | "image" => deploy_docker env path payload exec
    | _ => ("Invalid Type", [])

/-- A raw JSON body for `POST /webhook`, before deserialization: each of the
six recognized fields either present with a string value or absent. -/
structure RawBody where
  project : Option String
  repository : Option String
  githubtoken : Option String
  user : Option String
  type : Option String
  registry : Option String
deriving DecidableEq, Repr

/-- serde deserialization of `WebhookPayload` (lines 7-15): the fields not
declared `Option<String>` — `project`, `repository`, `type` — are required,
so a body missing any of them fails to deserialize. -/
def deserializePayload (b : RawBody) : Option WebhookPayload :=
  match b.project, b.repository, b.type with
  | some proj, some repo, some ty =>
      some ⟨proj, repo, b.githubtoken, b.user, ty, b.registry⟩
  | _, _, _ => none

/-- The full `POST /webhook` route: axum runs `handle_deploy` only when the
body deserializes; `none` models the request being rejected by the `Json`
extractor before dispatch, with no command executed. -/
def webhook (config : String → Option String) (env : Env) (b : RawBody)
    (exec : String → CmdResult) : Option (String × List String) :=
  (deserializePayload b).map fun p => handle_deploy config env p exec

/-! ### Concrete fixtures used by witnesses and counterexamples -/

/-- A one-project config map: `blog` deploys at `/srv/blog`. -/
def config1 : String → Option String :=
  fun s => if s = "blog" then some "/srv/blog" else none

/-- An environment with neither default credential set. -/
def env0 : Env := ⟨none, none⟩

/-- An environment supplying only the default token `d`. -/
def envTok : Env := ⟨some "d", none⟩

/-- A repo-mode request carrying both credentials. -/
def payloadRepo : WebhookPayload :=
  ⟨"blog", "r", some "tok", some "alice", "repo", none⟩

/-- An image-mode request carrying both credentials and no registry. -/
def payloadImage : WebhookPayload :=
  ⟨"blog", "r", some "tok", some "alice", "image", none⟩

/-- An oracle under which every command exits successfully. -/
def execAllOk : String → CmdResult := fun _ => .exited true

/-- An oracle under which every command exits with a non-zero status. -/
def execAllFail : String → CmdResult := fun _ => .exited false

/-- An oracle under which the two compose commands for `/srv/blog` fail to
spawn while every other command exits successfully. -/
def execComposeSpawnErr : String → CmdResult :=
  fun c =>
    if c = composeBuildCmd "/srv/blog" ∨ c = composePullCmd "/srv/blog" then
      .spawnError
    else .exited true

/-- An oracle under which the two compose commands for `/srv/blog` run but
exit non-zero while every other command exits successfully. -/
def execComposeExitFail : String → CmdResult :=
  fun c =>
    if c = composeBuildCmd "/srv/blog" ∨ c = composePullCmd "/srv/blog" then
      .exited false
    else .exited true

/-! ### Helper lemmas shared by several claims -/

/-- Once credentials resolve, deploy_git is determined by the oracle on its
two command lines; in particular the trace records which commands ran. -/
theorem deploy_git_eq (env : Env) (path : String) (p : WebhookPayload)
    (exec : String → CmdResult) (t u : String)
    (ht : resolveToken env p = some t) (hu : resolveUser env p = some u) :
    deploy_git env path p exec =
      match exec (gitPullCmd path u t) with
      | .exited true =>
        match exec (composeBuildCmd path) with
        | .exited true =>
            ("Success: Repo Pulled and Containers Rebuilt",
              [gitPullCmd path u t, composeBuildCmd path])
        | .exited false =>
            ("Git pull success, but Compose build/up failed",
              [gitPullCmd path u t, composeBuildCmd path])
        | .spawnError =>
            ("Command execution error",
              [gitPullCmd path u t, composeBuildCmd path])
      | _ => ("Git Pull Failed", [gitPullCmd path u t]) := by
  unfold deploy_git
  rw [ht, hu]

/-- Once credentials resolve, deploy_docker is determined by the oracle on
its two command lines. -/
theorem deploy_docker_eq (env : Env) (path : String) (p : WebhookPayload)
    (exec : String → CmdResult) (t u : String)
    (ht : resolveToken env p = some t) (hu : resolveUser env p = some u) :
    deploy_docker env path p exec =
      match exec (loginCmd t (resolveRegistry p) u) with
      | .exited true =>
        match exec (composePullCmd path) with
        | .exited true =>
            ("Success: Images Pulled and Containers Restarted",
              [loginCmd t (resolveRegistry p) u, composePullCmd path])
        | .exited false =>
            ("Docker Compose pull/up failed",
              [loginCmd t (resolveRegistry p) u, composePullCmd path])
        | .spawnError =>
            ("Command execution error",
              [loginCmd t (resolveRegistry p) u, composePullCmd path])
      | _ => ("Docker Login Failed", [loginCmd t (resolveRegistry p) u]) := by
  unfold deploy_docker
  rw [ht, hu]

/-- The git pull command line is never the compose build command line:
its fixed text alone is longer, whatever the path and credentials are. -/
theorem gitPullCmd_ne_composeBuildCmd (path u t : String) :
    gitPullCmd path u t ≠ composeBuildCmd path := by
  intro h
  have h2 := congrArg String.length h
  simp only [gitPullCmd, composeBuildCmd, String.length_append] at h2
  have hA : 36 ≤ (" && git -c credential.helper= -c \"credential.helper=!f() \x7b echo username=").length := by
    decide
  have hD : (" && docker compose up -d --build").length ≤ 35 := by decide
  omega

/-- The registry login command line is never the compose pull command line:
they start with different characters. -/
theorem loginCmd_ne_composePullCmd (t reg u path : String) :
    loginCmd t reg u ≠ composePullCmd path := by
  intro h
  have h2 := congrArg (fun s => s.data.head?) h
  simp only [loginCmd, composePullCmd, String.data_append] at h2
  simp at h2

/-! ### The claims -/

/-- C1 counterexample: the claim says a request with an unknown project and
an unrecognized mode is rejected as InvalidRequest before the registry
lookup; on the code the same request yields the ProjectNotFound response
("Project not found in config"), not the InvalidRequest response
("Invalid Type"). -/
theorem C1_counterexample :
    handle_deploy config1 env0 ⟨"unknown", "r", some "t", some "a", "bogus", none⟩ execAllOk
        = ("Project not found in config", []) ∧
      handle_deploy config1 env0 ⟨"unknown", "r", some "t", some "a", "bogus", none⟩ execAllOk
        ≠ ("Invalid Type", []) := by
  decide

/-- C1 (amended): handle_deploy performs the registry lookup before it
examines the mode. A request whose project is absent yields ProjectNotFound
whatever the mode is; the InvalidRequest response for an unrecognized mode
is produced only after the project lookup has succeeded. -/
theorem C1_lookup_precedes_mode_check (config : String → Option String)
    (env : Env) (p : WebhookPayload) (exec : String → CmdResult) :
    (config p.project = none →
      handle_deploy config env p exec = ("Project not found in config", [])) ∧
    (∀ path, config p.project = some path → p.type ≠ "repo" → p.type ≠ "image" →
      handle_deploy config env p exec = ("Invalid Type", [])) := by
  constructor
  · intro h
    unfold handle_deploy
    rw [h]
  · intro path h h1 h2
    simp only [handle_deploy, h]

/-- C1 witness: concrete instances of both parts of the amended claim. -/
theorem C1_lookup_precedes_mode_check_witness :
    handle_deploy config1 env0 ⟨"unknown", "r", some "t", some "a", "bogus", none⟩ execAllOk
        = ("Project not found in config", []) ∧
      handle_deploy config1 env0 ⟨"blog", "r", some "t", some "a", "bogus", none⟩ execAllOk
        = ("Invalid Type", []) :=
  ⟨(C1_lookup_precedes_mode_check config1 env0
      ⟨"unknown", "r", some "t", some "a", "bogus", none⟩ execAllOk).1 (by decide),
    (C1_lookup_precedes_mode_check config1 env0
      ⟨"blog", "r", some "t", some "a", "bogus", none⟩ execAllOk).2 "/srv/blog"
      (by decide) (by decide) (by decide)⟩

/-- C2: in the source-mode strategy, whenever the git pull command does not
exit successfully (non-zero exit or spawn error), the outcome is the
SourceSyncFailed response ("Git Pull Failed") and the compose build command
is never handed to the shell: the trace is exactly the pull command, and the
compose build command is not in it. -/
theorem C2_pull_failure_short_circuits (env : Env) (path : String)
    (p : WebhookPayload) (exec : String → CmdResult) (t u : String)
    (ht : resolveToken env p = some t) (hu : resolveUser env p = some u)
    (hfail : exec (gitPullCmd path u t) ≠ CmdResult.exited true) :
    deploy_git env path p exec = ("Git Pull Failed", [gitPullCmd path u t]) ∧
      composeBuildCmd path ∉ (deploy_git env path p exec).2 := by
  have hmain : deploy_git env path p exec = ("Git Pull Failed", [gitPullCmd path u t]) := by
    rw [deploy_git_eq env path p exec t u ht hu]
    cases hp : exec (gitPullCmd path u t) with
    | exited b =>
      cases b with
      | true => exact absurd hp hfail
      | false => rfl
    | spawnError => rfl
  refine ⟨hmain, ?_⟩
  rw [hmain]
  simp only [List.mem_singleton]
  exact fun hh => gitPullCmd_ne_composeBuildCmd path u t hh.symm

/-- C2 witness: with both credentials in the request and an oracle under
which every command exits non-zero, the pull fails and only the pull
command appears in the trace. -/
theorem C2_pull_failure_short_circuits_witness :
    deploy_git env0 "/srv/blog" payloadRepo execAllFail
        = ("Git Pull Failed", [gitPullCmd "/srv/blog" "alice" "tok"]) ∧
      composeBuildCmd "/srv/blog" ∉ (deploy_git env0 "/srv/blog" payloadRepo execAllFail).2 :=
  C2_pull_failure_short_circuits env0 "/srv/blog" payloadRepo execAllFail
    "tok" "alice" (by decide) (by decide) (by decide)

/-- C3: credential precedence is request-over-default per field. If the
request carries a user but no token and the environment carries a default
token, resolution yields exactly that pair; if neither the request nor the
environment carries either field, both strategies stop with their
MissingCredentials response and hand nothing to the shell. -/
theorem C3_credential_precedence :
    (∀ (env : Env) (p : WebhookPayload) (u d : String),
      p.user = some u → p.githubtoken = none → env.DOCKER_TOKEN = some d →
      resolveUser env p = some u ∧ resolveToken env p = some d) ∧
    (∀ (env : Env) (path : String) (p : WebhookPayload) (exec : String → CmdResult),
      p.user = none → p.githubtoken = none →
      env.DOCKER_USER = none → env.DOCKER_TOKEN = none →
      deploy_git env path p exec = ("Missing Git Credentials", []) ∧
        deploy_docker env path p exec = ("Missing Docker Credentials", [])) := by
  constructor
  · intro env p u d hu hgt htok
    constructor
    · simp [resolveUser, Option.orElse, hu]
    · simp [resolveToken, Option.orElse, hgt, htok]
  · intro env path p exec hu hgt henvu henvt
    have h1 : resolveToken env p = none := by
      simp [resolveToken, Option.orElse, hgt, henvt]
    have h2 : resolveUser env p = none := by
      simp [resolveUser, Option.orElse, hu, henvu]
    constructor
    · unfold deploy_git
      rw [h1, h2]
    · unfold deploy_docker
      rw [h1, h2]

/-- C3 witness: concrete instances of both parts — a request with only a
user against an environment with only a token, and a request against an
environment with nothing. -/
theorem C3_credential_precedence_witness :
    (resolveUser envTok ⟨"blog", "r", none, some "u", "repo", none⟩ = some "u" ∧
      resolveToken envTok ⟨"blog", "r", none, some "u", "repo", none⟩ = some "d") ∧
    (deploy_git env0 "/srv/blog" ⟨"blog", "r", none, none, "repo", none⟩ execAllOk
        = ("Missing Git Credentials", []) ∧
      deploy_docker env0 "/srv/blog" ⟨"blog", "r", none, none, "image", none⟩ execAllOk
        = ("Missing Docker Credentials", [])) :=
  ⟨C3_credential_precedence.1 envTok ⟨"blog", "r", none, some "u", "repo", none⟩
      "u" "d" rfl rfl rfl,
    ⟨(C3_credential_precedence.2 env0 "/srv/blog"
        ⟨"blog", "r", none, none, "repo", none⟩ execAllOk rfl rfl rfl rfl).1,
      (C3_credential_precedence.2 env0 "/srv/blog"
        ⟨"blog", "r", none, none, "image", none⟩ execAllOk rfl rfl rfl rfl).2⟩⟩

/-- C4: a request naming a project absent from the config map yields the
ProjectNotFound response and an empty trace — no external command is
executed. -/
theorem C4_project_not_found (config : String → Option String) (env : Env)
    (p : WebhookPayload) (exec : String → CmdResult)
    (h : config p.project = none) :
    handle_deploy config env p exec = ("Project not found in config", []) := by
  unfold handle_deploy
  rw [h]

/-- C4 witness: the end-to-end scenario of the spec, request
project unknown, mode repo, with credentials. -/
theorem C4_project_not_found_witness :
    handle_deploy config1 env0 ⟨"unknown", "r", some "t", some "a", "repo", none⟩ execAllOk
      = ("Project not found in config", []) :=
  C4_project_not_found config1 env0
    ⟨"unknown", "r", some "t", some "a", "repo", none⟩ execAllOk (by decide)

/-- C5: registry resolution is total. A request omitting the registry field
resolves to exactly "ghcr.io"; a request carrying one resolves to the
carried value; and when credentials resolve and the registry field is
absent, the first command deploy_docker hands to the shell is the login
against ghcr.io. -/
theorem C5_registry_default :
    (∀ p : WebhookPayload, p.registry = none → resolveRegistry p = "ghcr.io") ∧
    (∀ (p : WebhookPayload) (r : String), p.registry = some r → resolveRegistry p = r) ∧
    (∀ (env : Env) (path : String) (p : WebhookPayload) (exec : String → CmdResult)
      (t u : String),
      resolveToken env p = some t → resolveUser env p = some u → p.registry = none →
      (deploy_docker env path p exec).2.head? = some (loginCmd t "ghcr.io" u)) := by
  refine ⟨?_, ?_, ?_⟩
  · intro p h
    simp [resolveRegistry, h]
  · intro p r h
    simp [resolveRegistry, h]
  · intro env path p exec t u ht hu hreg
    have hr : resolveRegistry p = "ghcr.io" := by simp [resolveRegistry, hreg]
    rw [deploy_docker_eq env path p exec t u ht hu, hr]
    cases hl : exec (loginCmd t "ghcr.io" u) with
    | exited b =>
      cases b with
      | true =>
        cases hc : exec (composePullCmd path) with
        | exited b2 => cases b2 <;> rfl
        | spawnError => rfl
      | false => rfl
    | spawnError => rfl

/-- C5 witness: concrete instances of all three parts. -/
theorem C5_registry_default_witness :
    resolveRegistry payloadImage = "ghcr.io" ∧
      resolveRegistry ⟨"blog", "r", some "tok", some "alice", "image", some "reg.example"⟩
        = "reg.example" ∧
      (deploy_docker env0 "/srv/blog" payloadImage execAllOk).2.head?
        = some (loginCmd "tok" "ghcr.io" "alice") :=
  ⟨C5_registry_default.1 payloadImage rfl,
    C5_registry_default.2.1
      ⟨"blog", "r", some "tok", some "alice", "image", some "reg.example"⟩
      "reg.example" rfl,
    C5_registry_default.2.2 env0 "/srv/blog" payloadImage execAllOk
      "tok" "alice" (by decide) (by decide) rfl⟩

/-- C6: in the image-mode strategy, a failing registry login yields the
RegistryAuthFailed response ("Docker Login Failed") and the compose pull
command is never handed to the shell; and when the login succeeds but the
compose pull exits non-zero, the outcome is the RebuildFailed response
("Docker Compose pull/up failed") with the login command occurring exactly
once in the trace. -/
theorem C6_login_gate (env : Env) (path : String) (p : WebhookPayload)
    (exec : String → CmdResult) (t u : String)
    (ht : resolveToken env p = some t) (hu : resolveUser env p = some u) :
    (exec (loginCmd t (resolveRegistry p) u) ≠ CmdResult.exited true →
      deploy_docker env path p exec
          = ("Docker Login Failed", [loginCmd t (resolveRegistry p) u]) ∧
        composePullCmd path ∉ (deploy_docker env path p exec).2) ∧
    (exec (loginCmd t (resolveRegistry p) u) = CmdResult.exited true →
     exec (composePullCmd path) = CmdResult.exited false →
      deploy_docker env path p exec
          = ("Docker Compose pull/up failed",
              [loginCmd t (resolveRegistry p) u, composePullCmd path]) ∧
        (deploy_docker env path p exec).2.count (loginCmd t (resolveRegistry p) u) = 1) := by
  constructor
  · intro hfail
    have hmain : deploy_docker env path p exec
        = ("Docker Login Failed", [loginCmd t (resolveRegistry p) u]) := by
      rw [deploy_docker_eq env path p exec t u ht hu]
      cases hl : exec (loginCmd t (resolveRegistry p) u) with
      | exited b =>
        cases b with
        | true => exact absurd hl hfail
        | false => rfl
      | spawnError => rfl
    refine ⟨hmain, ?_⟩
    rw [hmain]
    simp only [List.mem_singleton]
    exact fun hh => loginCmd_ne_composePullCmd t (resolveRegistry p) u path hh.symm
  · intro hlogin hpull
    have hmain : deploy_docker env path p exec
        = ("Docker Compose pull/up failed",
            [loginCmd t (resolveRegistry p) u, composePullCmd path]) := by
      rw [deploy_docker_eq env path p exec t u ht hu, hlogin, hpull]
    refine ⟨hmain, ?_⟩
    rw [hmain]
    have hne : loginCmd t (resolveRegistry p) u ≠ composePullCmd path :=
      loginCmd_ne_composePullCmd t (resolveRegistry p) u path
    simp [List.count_cons, hne]

/-- C6 witness: concrete instances of both parts — an oracle failing every
command for the login branch, and an oracle failing exactly the compose
commands for the RebuildFailed branch. -/
theorem C6_login_gate_witness :
    (deploy_docker env0 "/srv/blog" payloadImage execAllFail
        = ("Docker Login Failed", [loginCmd "tok" "ghcr.io" "alice"]) ∧
      composePullCmd "/srv/blog" ∉ (deploy_docker env0 "/srv/blog" payloadImage execAllFail).2) ∧
    (deploy_docker env0 "/srv/blog" payloadImage execComposeExitFail
        = ("Docker Compose pull/up failed",
            [loginCmd "tok" "ghcr.io" "alice", composePullCmd "/srv/blog"]) ∧
      (deploy_docker env0 "/srv/blog" payloadImage execComposeExitFail).2.count
          (loginCmd "tok" "ghcr.io" "alice") = 1) :=
  ⟨(C6_login_gate env0 "/srv/blog" payloadImage execAllFail "tok" "alice"
      (by decide) (by decide)).1 (by decide),
    (C6_login_gate env0 "/srv/blog" payloadImage execComposeExitFail "tok" "alice"
      (by decide) (by decide)).2 (by decide) (by decide)⟩

/-- C7 counterexample: on a fully successful run the code returns the
messages "Success: Repo Pulled and Containers Rebuilt" and
"Success: Images Pulled and Containers Restarted", not the exact messages
"source synced and containers rebuilt" and
"images pulled and containers restarted" stated by the claim. -/
theorem C7_counterexample :
    (deploy_git env0 "/srv/blog" payloadRepo execAllOk).1
        = "Success: Repo Pulled and Containers Rebuilt" ∧
      (deploy_git env0 "/srv/blog" payloadRepo execAllOk).1
        ≠ "source synced and containers rebuilt" ∧
      (deploy_docker env0 "/srv/blog" payloadImage execAllOk).1
        = "Success: Images Pulled and Containers Restarted" ∧
      (deploy_docker env0 "/srv/blog" payloadImage execAllOk).1
        ≠ "images pulled and containers restarted" := by
  decide

/-- C7 (amended): on success the source-mode strategy returns exactly
"Success: Repo Pulled and Containers Rebuilt" and the image-mode strategy
returns exactly "Success: Images Pulled and Containers Restarted". -/
theorem C7_success_messages (env : Env) (path : String) (p : WebhookPayload)
    (exec : String → CmdResult) (t u : String)
    (ht : resolveToken env p = some t) (hu : resolveUser env p = some u)
    (hpull : exec (gitPullCmd path u t) = CmdResult.exited true)
    (hbuild : exec (composeBuildCmd path) = CmdResult.exited true)
    (hlogin : exec (loginCmd t (resolveRegistry p) u) = CmdResult.exited true)
    (hcpull : exec (composePullCmd path) = CmdResult.exited true) :
    (deploy_git env path p exec).1 = "Success: Repo Pulled and Containers Rebuilt" ∧
      (deploy_docker env path p exec).1 = "Success: Images Pulled and Containers Restarted" := by
  constructor
  · rw [deploy_git_eq env path p exec t u ht hu, hpull, hbuild]
  · rw [deploy_docker_eq env path p exec t u ht hu, hlogin, hcpull]

/-- C7 witness: a fully successful run with concrete credentials. -/
theorem C7_success_messages_witness :
    (deploy_git env0 "/srv/blog" payloadRepo execAllOk).1
        = "Success: Repo Pulled and Containers Rebuilt" ∧
      (deploy_docker env0 "/srv/blog" payloadRepo execAllOk).1
        = "Success: Images Pulled and Containers Restarted" :=
  C7_success_messages env0 "/srv/blog" payloadRepo execAllOk "tok" "alice"
    (by decide) (by decide) (by decide) (by decide) (by decide) (by decide)

/-- C8: in the orchestrator rebuild/restart step of either strategy, a
spawn failure yields the ExecutionError response ("Command execution
error"); a run that exits non-zero yields the RebuildFailed response of
that strategy; the RebuildFailed response is yielded only when the compose
command actually ran and exited non-zero; and the two responses are
distinct strings. -/
theorem C8_spawn_error_distinct (env : Env) (path : String)
    (p : WebhookPayload) (exec : String → CmdResult) (t u : String)
    (ht : resolveToken env p = some t) (hu : resolveUser env p = some u) :
    ((exec (gitPullCmd path u t) = CmdResult.exited true →
        (exec (composeBuildCmd path) = CmdResult.spawnError →
          (deploy_git env path p exec).1 = "Command execution error") ∧
        (exec (composeBuildCmd path) = CmdResult.exited false →
          (deploy_git env path p exec).1 = "Git pull success, but Compose build/up failed")) ∧
      ((deploy_git env path p exec).1 = "Git pull success, but Compose build/up failed" →
        exec (composeBuildCmd path) = CmdResult.exited false)) ∧
    ((exec (loginCmd t (resolveRegistry p) u) = CmdResult.exited true →
        (exec (composePullCmd path) = CmdResult.spawnError →
          (deploy_docker env path p exec).1 = "Command execution error") ∧
        (exec (composePullCmd path) = CmdResult.exited false →
          (deploy_docker env path p exec).1 = "Docker Compose pull/up failed")) ∧
      ((deploy_docker env path p exec).1 = "Docker Compose pull/up failed" →
        exec (composePullCmd path) = CmdResult.exited false)) ∧
    "Command execution error" ≠ "Git pull success, but Compose build/up failed" ∧
    "Command execution error" ≠ "Docker Compose pull/up failed" := by
  have hg := deploy_git_eq env path p exec t u ht hu
  have hd := deploy_docker_eq env path p exec t u ht hu
  refine ⟨⟨?_, ?_⟩, ⟨?_, ?_⟩, by decide, by decide⟩
  · intro hpull
    constructor
    · intro hsp
      rw [hg, hpull, hsp]
    · intro hex
      rw [hg, hpull, hex]
  · rw [hg]
    cases hp : exec (gitPullCmd path u t) with
    | exited b =>
      cases b with
      | true =>
        cases hc : exec (composeBuildCmd path) with
        | exited b2 =>
          cases b2 with
          | true =>
            intro hmsg
            have h3 : ("Success: Repo Pulled and Containers Rebuilt" : String)
                = "Git pull success, but Compose build/up failed" := hmsg
            exact absurd h3 (by decide)
          | false =>
            intro _
            rfl
        | spawnError =>
          intro hmsg
          have h3 : ("Command execution error" : String)
              = "Git pull success, but Compose build/up failed" := hmsg
          exact absurd h3 (by decide)
      | false =>
        intro hmsg
        have h3 : ("Git Pull Failed" : String)
            = "Git pull success, but Compose build/up failed" := hmsg
        exact absurd h3 (by decide)
    | spawnError =>
      intro hmsg
      have h3 : ("Git Pull Failed" : String)
          = "Git pull success, but Compose build/up failed" := hmsg
      exact absurd h3 (by decide)
  · intro hlogin
    constructor
    · intro hsp
      rw [hd, hlogin, hsp]
    · intro hex
      rw [hd, hlogin, hex]
  · rw [hd]
    cases hl : exec (loginCmd t (resolveRegistry p) u) with
    | exited b =>
      cases b with
      | true =>
        cases hc : exec (composePullCmd path) with
        | exited b2 =>
          cases b2 with
          | true =>
            intro hmsg
            have h3 : ("Success: Images Pulled and Containers Restarted" : String)
                = "Docker Compose pull/up failed" := hmsg
            exact absurd h3 (by decide)
          | false =>
            intro _
            rfl
        | spawnError =>
          intro hmsg
          have h3 : ("Command execution error" : String)
              = "Docker Compose pull/up failed" := hmsg
          exact absurd h3 (by decide)
      | false =>
        intro hmsg
        have h3 : ("Docker Login Failed" : String)
            = "Docker Compose pull/up failed" := hmsg
        exact absurd h3 (by decide)
    | spawnError =>
      intro hmsg
      have h3 : ("Docker Login Failed" : String)
          = "Docker Compose pull/up failed" := hmsg
      exact absurd h3 (by decide)

/-- C8 witness: concrete runs in which the compose step fails to spawn,
and runs in which it exits non-zero, for both strategies. -/
theorem C8_spawn_error_distinct_witness :
    (deploy_git env0 "/srv/blog" payloadRepo execComposeSpawnErr).1
        = "Command execution error" ∧
      (deploy_git env0 "/srv/blog" payloadRepo execComposeExitFail).1
        = "Git pull success, but Compose build/up failed" ∧
      (deploy_docker env0 "/srv/blog" payloadImage execComposeSpawnErr).1
        = "Command execution error" ∧
      (deploy_docker env0 "/srv/blog" payloadImage execComposeExitFail).1
        = "Docker Compose pull/up failed" :=
  ⟨((C8_spawn_error_distinct env0 "/srv/blog" payloadRepo execComposeSpawnErr
        "tok" "alice" (by decide) (by decide)).1.1 (by decide)).1 (by decide),
    ((C8_spawn_error_distinct env0 "/srv/blog" payloadRepo execComposeExitFail
        "tok" "alice" (by decide) (by decide)).1.1 (by decide)).2 (by decide),
    ((C8_spawn_error_distinct env0 "/srv/blog" payloadImage execComposeSpawnErr
        "tok" "alice" (by decide) (by decide)).2.1.1 (by decide)).1 (by decide),
    ((C8_spawn_error_distinct env0 "/srv/blog" payloadImage execComposeExitFail
        "tok" "alice" (by decide) (by decide)).2.1.1 (by decide)).2 (by decide)⟩

/-- C9: the code violates the claim. On a concrete well-formed request the
dispatcher hands the shell a command line that contains the resolved token
("tok") and the resolved user ("alice") verbatim as substrings, because the
git pull command is built by formatting both into the sh -c string. -/
theorem C9_token_in_shell_command :
    ∃ c, c ∈ (handle_deploy config1 env0 payloadRepo execAllOk).2 ∧
      (∃ pre post, c = pre ++ "tok" ++ post) ∧
      (∃ pre post, c = pre ++ "alice" ++ post) := by
  refine ⟨gitPullCmd "/srv/blog" "alice" "tok", by decide, ?_, ?_⟩
  · exact ⟨"cd /srv/blog && git -c credential.helper= -c \"credential.helper=!f() \x7b echo username=alice; echo password=",
      "; \x7d; f\" pull origin main", by decide⟩
  · exact ⟨"cd /srv/blog && git -c credential.helper= -c \"credential.helper=!f() \x7b echo username=",
      "; echo password=tok; \x7d; f\" pull origin main", by decide⟩

/-- C10: the webhook body requires a repository field — a body omitting it
fails to deserialize, so the request is rejected before dispatch with no
command executed — yet the value of the field has no influence on the
outcome of dispatch. -/
theorem C10_repository_required_unused :
    (∀ b : RawBody, b.repository = none → deserializePayload b = none) ∧
    (∀ (config : String → Option String) (env : Env) (b : RawBody)
      (exec : String → CmdResult),
      b.repository = none → webhook config env b exec = none) ∧
    (∀ (config : String → Option String) (env : Env) (p : WebhookPayload)
      (r : String) (exec : String → CmdResult),
      handle_deploy config env { p with repository := r } exec
        = handle_deploy config env p exec) := by
  have hdes : ∀ b : RawBody, b.repository = none → deserializePayload b = none := by
    intro b hb
    cases b with
    | mk proj repo gt u ty reg =>
      have hb2 : repo = none := hb
      subst hb2
      cases proj <;> cases ty <;> rfl
  refine ⟨hdes, ?_, ?_⟩
  · intro config env b exec hb
    unfold webhook
    rw [hdes b hb]
    rfl
  · intro config env p r exec
    cases p
    rfl

/-- C10 witness: a body missing only repository is rejected before dispatch,
and two payloads differing only in repository dispatch identically. -/
theorem C10_repository_required_unused_witness :
    deserializePayload ⟨some "blog", none, some "tok", some "alice", some "repo", none⟩ = none ∧
      webhook config1 env0
          ⟨some "blog", none, some "tok", some "alice", some "repo", none⟩ execAllOk = none ∧
      handle_deploy config1 env0 ⟨"blog", "x", some "tok", some "alice", "repo", none⟩ execAllOk
        = handle_deploy config1 env0 payloadRepo execAllOk :=
  ⟨C10_repository_required_unused.1
      ⟨some "blog", none, some "tok", some "alice", some "repo", none⟩ rfl,
    C10_repository_required_unused.2.1 config1 env0
      ⟨some "blog", none, some "tok", some "alice", some "repo", none⟩ execAllOk rfl,
    C10_repository_required_unused.2.2 config1 env0 payloadRepo "x" execAllOk⟩

end GraftHook
